import Mathlib

/-!
Shallow embedding of the client-side synchronization and caching layer of the
jarvis-acsia repository, together with proofs of the spec's testable
properties.

Modelling conventions:
* Time (`Date.now()`, parsed ISO timestamps) is modelled as `Int` epoch
  milliseconds.
* `localStorage` is modelled as a total map `String → Option StoredString`;
  a persisted string is represented by the outcome of `JSON.parse` on it:
  `StoredString.entryStr e` stands for `JSON.stringify` of the cache entry `e`
  (which `JSON.parse` inverts for these flat records of strings and numbers),
  and `StoredString.junk` stands for a string on which `JSON.parse` throws.
* Remote calls are modelled by oracle parameters (`Except Unit _` for calls
  that can reject, a plain result for calls that catch their own errors).
* All functions are pure Lean functions, so determinism of the embedded code
  is intrinsic.
-/

/-- Article shape from `src/services/api.ts` (`source: { name }` flattened to
its single field, `urlToImage` nullable). -/
structure Article where
  title : String
  description : String
  url : String
  urlToImage : Option String
  sourceName : String
  publishedAt : String
deriving DecidableEq

/-- Cache record shape from `newsCache.ts` (`NewsCacheEntry`). -/
structure NewsCacheEntry where
  articles : List Article
  topics : List String
  cachedAt : Int
  userId : String
deriving DecidableEq

/-- A string persisted in `localStorage`, represented by its `JSON.parse`
outcome: `entryStr e` is the serialization of entry `e`, `junk` is a string
on which `JSON.parse` throws. -/
inductive StoredString where
  | entryStr (e : NewsCacheEntry)
  | junk
deriving DecidableEq

/-- The browser `localStorage`, one value per key. -/
abbrev Store := String → Option StoredString

def getItem (s : Store) (k : String) : Option StoredString := s k

def setItem (s : Store) (k : String) (v : StoredString) : Store :=
  fun k2 => if k2 = k then some v else s k2

def removeItem (s : Store) (k : String) : Store :=
  fun k2 => if k2 = k then none else s k2

/-- `CACHE_TTL_MS = 2 * 60 * 60 * 1000` from `newsCache.ts`. -/
def CACHE_TTL_MS : Int := 2 * 60 * 60 * 1000

/-- `getCacheKey` from `newsCache.ts`. -/
def getCacheKey (userId : String) : String := "news_cache_" ++ userId

/-- `getCachedNews` from `newsCache.ts`: read the record under the namespaced
key; a missing or unparsable record yields `none` (the `catch` branch); a
record older than the TTL is removed and yields `none`; otherwise the parsed
entry is returned.  The returned `Store` is the storage state after the call. -/
def getCachedNews (store : Store) (now : Int) (userId : String) :
    Option NewsCacheEntry × Store :=
  let key := getCacheKey userId
  match getItem store key with
  | none => (none, store)
  | some .junk => (none, store)
  | some (.entryStr entry) =>
    if now - entry.cachedAt > CACHE_TTL_MS then
      (none, removeItem store key)
    else
      (some entry, store)

/-- `setCachedNews` from `newsCache.ts` (the successful-persist path; a quota
failure leaves the store unchanged and is swallowed by the source). -/
def setCachedNews (store : Store) (now : Int) (userId : String)
    (articles : List Article) (topics : List String) : Store :=
  setItem store (getCacheKey userId)
    (.entryStr { articles := articles, topics := topics, cachedAt := now, userId := userId })

/-- `clearCachedNews` from `newsCache.ts`. -/
def clearCachedNews (store : Store) (userId : String) : Store :=
  removeItem store (getCacheKey userId)

/-- The standard base64 alphabet used by `btoa`. -/
def base64Alphabet : String :=
  "ABCDEFGHIJKLMNOPQRSTUVWXYZabcdefghijklmnopqrstuvwxyz0123456789+/"

/-- Character for a 6-bit group. -/
def b64Char (n : Nat) : Char := base64Alphabet.toList.getD n 'A'

/-- 6-bit value of an alphabet character. -/
def b64Val (c : Char) : Nat := base64Alphabet.toList.indexOf c

/-- Base64 of a byte sequence (each byte < 256), with `=` padding, as
produced by the browser's `btoa`. -/
def base64Encode : List Nat → List Char
  | [] => []
  | [b1] => [b64Char (b1 / 4), b64Char (b1 % 4 * 16), '=', '=']
  | [b1, b2] =>
      [b64Char (b1 / 4), b64Char (b1 % 4 * 16 + b2 / 16), b64Char (b2 % 16 * 4), '=']
  | b1 :: b2 :: b3 :: rest =>
      b64Char (b1 / 4) :: b64Char (b1 % 4 * 16 + b2 / 16) ::
        b64Char (b2 % 16 * 4 + b3 / 64) :: b64Char (b3 % 64) :: base64Encode rest

/-- Reassemble bytes from a sequence of 6-bit values (padding already
stripped). -/
def base64DecodeVals : List Nat → List Nat
  | v1 :: v2 :: v3 :: v4 :: rest =>
      (v1 * 4 + v2 / 16) :: (v2 % 16 * 16 + v3 / 4) :: (v3 % 4 * 64 + v4) ::
        base64DecodeVals rest
  | [v1, v2] => [v1 * 4 + v2 / 16]
  | [v1, v2, v3] => [v1 * 4 + v2 / 16, v2 % 16 * 16 + v3 / 4]
  | _ => []

/-- Base64 decoding of a character sequence: drop padding, map characters to
their 6-bit values, reassemble bytes. -/
def base64DecodeChars (cs : List Char) : List Nat :=
  base64DecodeVals ((cs.filter (fun c => c != '=')).map b64Val)

/-- A string is representable by `btoa` iff every character is ≤ U+00FF. -/
def latin1Encodable (s : String) : Bool := s.toList.all (fun c => c.toNat < 256)

/-- The browser `btoa`: base64 of the latin-1 bytes of the string, or failure
(an `InvalidCharacterError`) if some character is above U+00FF. -/
def btoa (s : String) : Option String :=
  if latin1Encodable s then
    some (String.mk (base64Encode (s.toList.map Char.toNat)))
  else none

/-- The `"<jobTitle ?? 'unknown'>|<department ?? 'unknown'>"` composition from
`deriveUserId` in `newsCache.ts`. -/
def composeRaw (jobTitle department : Option String) : String :=
  (jobTitle.getD "unknown") ++ "|" ++ (department.getD "unknown")

/-- The guest branch of `deriveUserId`: `btoa` of the composed raw string,
falling back to `"guest"` when `btoa` throws. -/
def deriveFallbackKey (jobTitle department : Option String) : String :=
  match btoa (composeRaw jobTitle department) with
  | some s => s
  | none => "guest"

/-- `deriveUserId` from `newsCache.ts`.  The source guard is the JavaScript
truthiness test `if (msalHomeAccountId)`, which treats both `undefined` and
the empty string as absent. -/
def deriveUserId (msalHomeAccountId jobTitle department : Option String) : String :=
  match msalHomeAccountId with
  | some s => if s = "" then deriveFallbackKey jobTitle department else s
  | none => deriveFallbackKey jobTitle department

/-- Local todo item shape from `AppContext.tsx` (`TodoItem`). -/
structure TodoItem where
  id : String
  listId : String
  text : String
  done : Bool
deriving DecidableEq

/-- Remote todo list shape from `graph.ts` (`TodoList`). -/
structure TodoList where
  id : String
  displayName : String
  wellknownListName : String
deriving DecidableEq

/-- The fields of the Graph `createTodoTask` response that `addTodo` reads. -/
structure CreatedTask where
  id : String
  title : String
  status : String
deriving DecidableEq

/-- `toggleTodo` from the todos hook: find the item, flip its `done` flag
locally, and — for a non-sentinel `listId` — issue the remote status update,
rolling the flag back in the `catch` branch if it rejects.  `remoteOk` models
whether the remote `updateTodoTask` call resolves. -/
def toggleTodo (todos : List TodoItem) (i : String) (remoteOk : Bool) :
    List TodoItem :=
  match todos.find? (fun t => t.id == i) with
  | none => todos
  | some todo =>
    let newDone := !todo.done
    let applied := todos.map (fun t => if t.id == i then { t with done := newDone } else t)
    if todo.listId ≠ "default" then
      if remoteOk then applied
      else applied.map (fun t => if t.id == i then { t with done := !newDone } else t)
    else applied

/-- Target-list resolution in `addTodo`:
`lists.find(l => l.displayName === "Tasks") || lists[0]`. -/
def resolveDefaultList (lists : List TodoList) : Option TodoList :=
  (lists.find? (fun l => l.displayName == "Tasks")).orElse (fun _ => lists.head?)

/-- JavaScript `String.prototype.trim`: strip leading and trailing
whitespace. -/
def jsTrim (s : String) : String :=
  String.mk (((s.toList.dropWhile Char.isWhitespace).reverse.dropWhile
    Char.isWhitespace).reverse)

/-- `addTodo` from the todos hook.  `lists` is the result of `getTodoLists`
(which catches its own failures and returns `[]`); `createRes` models whether
`createTodoTask` resolves with the created task or rejects (the `catch`
branch logs and leaves local state untouched). -/
def addTodo (todos : List TodoItem) (text : String) (lists : List TodoList)
    (createRes : Except Unit CreatedTask) : List TodoItem :=
  if jsTrim text = "" then todos
  else
    match resolveDefaultList lists with
    | none => todos
    | some defaultList =>
      match createRes with
      | .error _ => todos
      | .ok newTask =>
        { id := newTask.id, listId := defaultList.id, text := newTask.title,
          done := newTask.status == "completed" } :: todos

/-- `deleteTodo` from the todos hook: find the item, remove it from local
state synchronously, and — for a non-sentinel `listId` — issue the remote
deletion, re-appending the removed item in the `catch` branch if it rejects. -/
def deleteTodo (todos : List TodoItem) (i : String) (remoteOk : Bool) :
    List TodoItem :=
  match todos.find? (fun t => t.id == i) with
  | none => todos
  | some todo =>
    let removed := todos.filter (fun t => t.id != i)
    if todo.listId ≠ "default" then
      if remoteOk then removed else removed ++ [todo]
    else removed

/-- Remote task shape from `graph.ts` (`TodoTask`), with the timestamp fields
modelled by their parsed epoch-millisecond values: `due` is the value of
`new Date(dueDateTime.dateTime + "Z")` when a due date is present, and
`createdDateTime` the value of `new Date(createdDateTime)`. -/
structure TodoTask where
  id : String
  listId : String
  listName : String
  wellknownListName : String
  title : String
  status : String
  due : Option Int
  createdDateTime : Int
deriving DecidableEq

/-- A task as returned by the per-list Graph query, before `mapTask` injects
the list fields. -/
structure RawTask where
  id : String
  title : String
  status : String
  due : Option Int
  createdDateTime : Int
deriving DecidableEq

def MS_PER_DAY : Int := 86400000

/-- `const todayStart = new Date(); todayStart.setUTCHours(0, 0, 0, 0)` at
time `now`: the start of the UTC day containing `now`. -/
def utcDayStart (now : Int) : Int := now - now % MS_PER_DAY

/-- `const todayEnd = new Date(); todayEnd.setUTCHours(23, 59, 59, 999)` at
time `now`: the end of the UTC day containing `now`. -/
def utcDayEnd (now : Int) : Int := utcDayStart now + (MS_PER_DAY - 1)

/-- Modelled from the spec: the spec's phrase "the current local day" — the
start of the local calendar day containing `now`, for a session whose local
timezone is `off` milliseconds east of UTC.  The source has no such
computation (it uses `setUTCHours`); this definition exists only to state the
claim's local-day reading. -/
def specLocalDayStart (off now : Int) : Int :=
  (now + off) - (now + off) % MS_PER_DAY - off

/-- Modelled from the spec: the end of the local calendar day containing
`now` (see `specLocalDayStart`). -/
def specLocalDayEnd (off now : Int) : Int :=
  specLocalDayStart off now + (MS_PER_DAY - 1)

/-- `mapTask` from `getTasksForList`: inject the list identifiers into a raw
task. -/
def mapTask (listId listName wellknownListName : String) (t : RawTask) : TodoTask :=
  { id := t.id, listId := listId, listName := listName,
    wellknownListName := wellknownListName, title := t.title, status := t.status,
    due := t.due, createdDateTime := t.createdDateTime }

/-- The filtering logic of `getTasksForList` from `graph.ts`, applied to the
results of the two per-list queries (`allNotCompleted`, `allCompleted`):
incomplete tasks are kept when their due date — or, absent one, their
creation date — is on or before `todayEnd`; completed tasks are kept when
their creation timestamp lies in `[todayStart, todayEnd]`. -/
def getTasksForList (now : Int) (listId listName wellknownListName : String)
    (allNotCompleted allCompleted : List RawTask) : List TodoTask :=
  let todayStart := utcDayStart now
  let todayEnd := utcDayEnd now
  let relevantNotCompleted :=
    (allNotCompleted.map (mapTask listId listName wellknownListName)).filter
      (fun task =>
        match task.due with
        | none => decide (task.createdDateTime ≤ todayEnd)
        | some due => decide (due ≤ todayEnd))
  let completedToday :=
    (allCompleted.map (mapTask listId listName wellknownListName)).filter
      (fun task =>
        decide (todayStart ≤ task.createdDateTime) &&
          decide (task.createdDateTime ≤ todayEnd))
  relevantNotCompleted ++ completedToday

/-- Due-or-creation date of a task: the claim's "due date (or, when it has no
due date, its creation date)". -/
def effectiveDueDate (t : TodoTask) : Int := t.due.getD t.createdDateTime

/-- The timestamp is on or before the end of the current UTC day. -/
def onOrBeforeUtcDayEnd (now ts : Int) : Prop := ts ≤ utcDayEnd now

/-- The timestamp lies within the current UTC day's boundaries. -/
def inUtcDayWindow (now ts : Int) : Prop :=
  utcDayStart now ≤ ts ∧ ts ≤ utcDayEnd now

/-- Events observable in the sequential fetch loop of `getTodoItems`: a
per-list task fetch and the `delay(150)` pause that follows it. -/
inductive FetchEv where
  | fetchList (l : TodoList)
  | wait (ms : Nat)
deriving DecidableEq

/-- The `for (const list of validLists)` loop of `getTodoItems`: fetch one
list's tasks, wait 150 ms, continue.  Returns the accumulated `tasksPerList`
together with the event trace in execution order. -/
def getTodoItemsLoop (fetchOne : TodoList → List TodoTask) :
    List TodoList → List (List TodoTask) × List FetchEv
  | [] => ([], [])
  | l :: rest =>
    let tasks := fetchOne l
    let r := getTodoItemsLoop fetchOne rest
    (tasks :: r.1, FetchEv.fetchList l :: FetchEv.wait 150 :: r.2)

/-- `getTodoItems` from `graph.ts`: early-return on an empty list-of-lists,
drop every list tagged `flaggedEmails`, then fetch the remaining lists
strictly sequentially with a 150 ms delay after each fetch and flatten the
per-list results.  `fetchOne` models `getTasksForList`, which catches its own
failures (returning `[]`), so it is total. -/
def getTodoItems (lists : List TodoList) (fetchOne : TodoList → List TodoTask) :
    (List TodoTask × List TodoList) × List FetchEv :=
  if lists.length = 0 then (([], []), [])
  else
    let validLists := lists.filter (fun l => l.wellknownListName != "flaggedEmails")
    let r := getTodoItemsLoop fetchOne validLists
    ((r.1.flatten, validLists), r.2)

/-- Observable outcome of one run of `generateTopicsAndFetch`: the final
values of the context state it writes (`news`, the cache store, `apiError`,
`loading`) and which remote collaborators were invoked. -/
structure FeedResult where
  news : List Article
  store : Store
  apiError : Option String
  loading : Bool
  calledGenerateTopics : Bool
  calledGetNews : Bool

def backendRefusedMsg : String :=
  "The connection to the backend was refused. Is the main.py server running?"

def aiBackendMsg : String :=
  "Could not reach the AI backend. Please ensure the backend is running on port 8000."

/-- `fetchNews` from the news hook: the fetched articles, or `[]` with the
backend-refused error set when `apiService.getNews` rejects. -/
def fetchNews (newsRes : Except Unit (List Article)) :
    List Article × Option String :=
  match newsRes with
  | .ok articles => (articles, none)
  | .error _ => ([], some backendRefusedMsg)

/-- The cache-miss continuation of `generateTopicsAndFetch`: request topics
(`topicsRes` models `apiService.generateTopics`, whose rejection lands in the
`catch` branch), then — only when at least one topic came back — fetch
articles and, only when the result is non-empty, publish and cache them. -/
def generateTopicsAndFetchMiss (store1 : Store) (now : Int) (effectiveUid : String)
    (topicsRes : Except Unit (List String)) (newsRes : Except Unit (List Article))
    (news0 : List Article) : FeedResult :=
  match topicsRes with
  | .error _ =>
      { news := news0, store := store1, apiError := some aiBackendMsg,
        loading := false, calledGenerateTopics := true, calledGetNews := false }
  | .ok topics =>
      if topics.length > 0 then
        let fr := fetchNews newsRes
        if fr.1.length > 0 then
          { news := fr.1, store := setCachedNews store1 now effectiveUid fr.1 topics,
            apiError := fr.2, loading := false,
            calledGenerateTopics := true, calledGetNews := true }
        else
          { news := news0, store := store1, apiError := fr.2, loading := false,
            calledGenerateTopics := true, calledGetNews := true }
      else
        { news := news0, store := store1, apiError := none, loading := false,
          calledGenerateTopics := true, calledGetNews := false }

/-- `generateTopicsAndFetch` from the news hook: resolve the effective user
key (`uid ?? userId`), consult the cache, and on a hit with a non-empty
article sequence publish it and stop; otherwise run the miss path.  The
profile argument of the source only feeds the topic-generation request, which
is modelled by the `topicsRes` oracle; `news0` and `apiError0` are the
context values before the call. -/
def generateTopicsAndFetch (store : Store) (now : Int) (uid : Option String)
    (ctxUserId : String) (topicsRes : Except Unit (List String))
    (newsRes : Except Unit (List Article)) (news0 : List Article)
    (apiError0 : Option String) : FeedResult :=
  let effectiveUid := uid.getD ctxUserId
  let rd := getCachedNews store now effectiveUid
  match rd.1 with
  | some cached =>
    if cached.articles.length > 0 then
      { news := cached.articles, store := rd.2, apiError := apiError0,
        loading := false, calledGenerateTopics := false, calledGetNews := false }
    else generateTopicsAndFetchMiss rd.2 now effectiveUid topicsRes newsRes news0
  | none => generateTopicsAndFetchMiss rd.2 now effectiveUid topicsRes newsRes news0

/-- Claim C1: writing a cache entry and reading it back within the TTL window
(`now - cachedAt ≤ 7200000` ms) returns exactly the entry that was written,
with article and topic sequences equal element-for-element. -/
theorem getCachedNews_setCachedNews_roundtrip (store : Store) (wt now : Int)
    (k : String) (articles : List Article) (topics : List String)
    (h : now - wt ≤ CACHE_TTL_MS) :
    (getCachedNews (setCachedNews store wt k articles topics) now k).1 =
      some { articles := articles, topics := topics, cachedAt := wt, userId := k } := by
  have hget : getItem (setCachedNews store wt k articles topics) (getCacheKey k) =
      some (.entryStr { articles := articles, topics := topics, cachedAt := wt, userId := k }) := by
    simp [getItem, setCachedNews, setItem]
  simp only [getCachedNews, hget]
  rw [if_neg (by omega)]

/-- Witness for C1 at a concrete store, write time 0 and read time 1000. -/
theorem getCachedNews_setCachedNews_roundtrip_witness :
    (getCachedNews (setCachedNews (fun _ => none) 0 "u1"
        [{ title := "t", description := "d", url := "u", urlToImage := none,
           sourceName := "s", publishedAt := "p" }] ["ai"]) 1000 "u1").1 =
      some { articles := [{ title := "t", description := "d", url := "u", urlToImage := none,
                            sourceName := "s", publishedAt := "p" }],
             topics := ["ai"], cachedAt := 0, userId := "u1" } :=
  getCachedNews_setCachedNews_roundtrip (fun _ => none) 0 1000 "u1" _ _ (by decide)

/-- Claim C2: reading a record whose age exceeds the TTL removes the stored
record and returns `none`, and an immediately following second read also
returns `none` through the record-missing branch, leaving the store unchanged
(the eviction logic cannot run again because the record is gone). -/
theorem getCachedNews_expired_evicts (store : Store) (now : Int) (k : String)
    (e : NewsCacheEntry)
    (hrec : getItem store (getCacheKey k) = some (.entryStr e))
    (hexp : now - e.cachedAt > CACHE_TTL_MS) :
    (getCachedNews store now k).1 = none ∧
    getItem (getCachedNews store now k).2 (getCacheKey k) = none ∧
    getCachedNews (getCachedNews store now k).2 now k =
      (none, (getCachedNews store now k).2) := by
  have h1 : getCachedNews store now k = (none, removeItem store (getCacheKey k)) := by
    simp only [getCachedNews, hrec]
    rw [if_pos hexp]
  refine ⟨by rw [h1], ?_, ?_⟩
  · rw [h1]
    simp [getItem, removeItem]
  · rw [h1]
    simp [getCachedNews, getItem, removeItem]

/-- Witness for C2 at a concrete store holding an entry cached at time 0 and
read at time 7200001. -/
theorem getCachedNews_expired_evicts_witness :
    (getCachedNews
        (fun k2 => if k2 = "news_cache_u1" then
            some (.entryStr { articles := [], topics := [], cachedAt := 0, userId := "u1" })
          else none) 7200001 "u1").1 = none :=
  (getCachedNews_expired_evicts
    (fun k2 => if k2 = "news_cache_u1" then
        some (.entryStr { articles := [], topics := [], cachedAt := 0, userId := "u1" })
      else none) 7200001 "u1"
    { articles := [], topics := [], cachedAt := 0, userId := "u1" }
    (by decide) (by decide)).1

/-- Claim C10: a stored record that fails to parse as JSON makes
`getCachedNews` return `none` while leaving the whole store — in particular
the unreadable record itself and every other key — unchanged, so a subsequent
read takes the same parse-failure path. -/
theorem getCachedNews_junk_frame (store : Store) (now : Int) (k : String)
    (hrec : getItem store (getCacheKey k) = some .junk) :
    getCachedNews store now k = (none, store) := by
  simp only [getCachedNews, hrec]

/-- Witness for C10 at a concrete store holding an unparsable record. -/
theorem getCachedNews_junk_frame_witness :
    (getCachedNews (fun k2 => if k2 = "news_cache_u1" then some .junk else none)
        5 "u1").1 = none := by
  rw [getCachedNews_junk_frame
    (fun k2 => if k2 = "news_cache_u1" then some .junk else none) 5 "u1" (by decide)]

/-- Every 6-bit group maps to an alphabet character, never to the padding
character. -/
theorem b64Char_ne_pad : ∀ n, n < 64 → b64Char n ≠ '=' := by decide

/-- Decoding inverts encoding on each 6-bit group. -/
theorem b64Val_b64Char : ∀ n, n < 64 → b64Val (b64Char n) = n := by decide

/-- Base64 decoding inverts base64 encoding on byte sequences. -/
theorem base64DecodeChars_encode (bs : List Nat) (h : ∀ b ∈ bs, b < 256) :
    base64DecodeChars (base64Encode bs) = bs := by
  induction bs using base64Encode.induct with
  | case1 => simp [base64Encode, base64DecodeChars, base64DecodeVals]
  | case2 b1 =>
    have hb1 : b1 < 256 := h b1 (by simp)
    have h1 : b1 / 4 < 64 := by omega
    have h2 : b1 % 4 * 16 < 64 := by omega
    have hne1 : (b64Char (b1 / 4) != '=') = true := by
      simp [bne_iff_ne, b64Char_ne_pad _ h1]
    have hne2 : (b64Char (b1 % 4 * 16) != '=') = true := by
      simp [bne_iff_ne, b64Char_ne_pad _ h2]
    simp [base64Encode, base64DecodeChars, List.filter_cons, hne1, hne2,
      b64Val_b64Char _ h1, b64Val_b64Char _ h2, base64DecodeVals]
    omega
  | case3 b1 b2 =>
    have hb1 : b1 < 256 := h b1 (by simp)
    have hb2 : b2 < 256 := h b2 (by simp)
    have h1 : b1 / 4 < 64 := by omega
    have h2 : b1 % 4 * 16 + b2 / 16 < 64 := by omega
    have h3 : b2 % 16 * 4 < 64 := by omega
    have hne1 : (b64Char (b1 / 4) != '=') = true := by
      simp [bne_iff_ne, b64Char_ne_pad _ h1]
    have hne2 : (b64Char (b1 % 4 * 16 + b2 / 16) != '=') = true := by
      simp [bne_iff_ne, b64Char_ne_pad _ h2]
    have hne3 : (b64Char (b2 % 16 * 4) != '=') = true := by
      simp [bne_iff_ne, b64Char_ne_pad _ h3]
    simp [base64Encode, base64DecodeChars, List.filter_cons, hne1, hne2, hne3,
      b64Val_b64Char _ h1, b64Val_b64Char _ h2, b64Val_b64Char _ h3, base64DecodeVals]
    constructor <;> omega
  | case4 b1 b2 b3 rest ih =>
    have hb1 : b1 < 256 := h b1 (by simp)
    have hb2 : b2 < 256 := h b2 (by simp)
    have hb3 : b3 < 256 := h b3 (by simp)
    have hrest : ∀ b ∈ rest, b < 256 := fun b hb => h b (by simp [hb])
    have h1 : b1 / 4 < 64 := by omega
    have h2 : b1 % 4 * 16 + b2 / 16 < 64 := by omega
    have h3 : b2 % 16 * 4 + b3 / 64 < 64 := by omega
    have h4 : b3 % 64 < 64 := by omega
    have hne1 : (b64Char (b1 / 4) != '=') = true := by
      simp [bne_iff_ne, b64Char_ne_pad _ h1]
    have hne2 : (b64Char (b1 % 4 * 16 + b2 / 16) != '=') = true := by
      simp [bne_iff_ne, b64Char_ne_pad _ h2]
    have hne3 : (b64Char (b2 % 16 * 4 + b3 / 64) != '=') = true := by
      simp [bne_iff_ne, b64Char_ne_pad _ h3]
    have hne4 : (b64Char (b3 % 64) != '=') = true := by
      simp [bne_iff_ne, b64Char_ne_pad _ h4]
    have ih2 := ih hrest
    simp only [base64DecodeChars] at ih2
    simp [base64Encode, base64DecodeChars, List.filter_cons, hne1, hne2, hne3, hne4,
      b64Val_b64Char _ h1, b64Val_b64Char _ h2, b64Val_b64Char _ h3, b64Val_b64Char _ h4,
      base64DecodeVals, ih2]
    refine ⟨by omega, by omega, by omega⟩

/-- Claim C3 counterexample: for the input triple `(some "", none, none)` the
account identifier is present but is NOT returned unchanged — the source's
truthiness guard `if (msalHomeAccountId)` treats the empty string as absent
and falls through to the encoded-fingerprint branch. -/
theorem deriveUserId_empty_accountId_cex :
    deriveUserId (some "") none none ≠ "" := by decide

/-- Claim C3 (amended): `deriveUserId` is a pure total function; a present
non-empty accountId is returned unchanged; otherwise (accountId absent or the
falsy empty string) the result is the base64 encoding of
`"<jobTitle ?? 'unknown'>|<department ?? 'unknown'>"`, an encoding that is
reversible (decoding returns exactly the composed string's bytes); if the
composed string has characters `btoa` cannot represent, the fixed sentinel
`"guest"` is returned. -/
theorem deriveUserId_spec (acct jt dept : Option String) :
    (∀ s, acct = some s → s ≠ "" → deriveUserId acct jt dept = s) ∧
    ((acct = none ∨ acct = some "") → latin1Encodable (composeRaw jt dept) = true →
        deriveUserId acct jt dept =
          String.mk (base64Encode ((composeRaw jt dept).toList.map Char.toNat)) ∧
        base64DecodeChars (base64Encode ((composeRaw jt dept).toList.map Char.toNat)) =
          (composeRaw jt dept).toList.map Char.toNat) ∧
    ((acct = none ∨ acct = some "") → latin1Encodable (composeRaw jt dept) = false →
        deriveUserId acct jt dept = "guest") := by
  have hfb_ok : latin1Encodable (composeRaw jt dept) = true →
      deriveFallbackKey jt dept =
        String.mk (base64Encode ((composeRaw jt dept).toList.map Char.toNat)) := by
    intro henc
    simp [deriveFallbackKey, btoa, henc]
  have hfb_bad : latin1Encodable (composeRaw jt dept) = false →
      deriveFallbackKey jt dept = "guest" := by
    intro henc
    simp [deriveFallbackKey, btoa, henc]
  refine ⟨?_, ?_, ?_⟩
  · rintro s rfl hs
    simp [deriveUserId, hs]
  · rintro (rfl | rfl) henc
    · refine ⟨?_, ?_⟩
      · simpa [deriveUserId] using hfb_ok henc
      · refine base64DecodeChars_encode _ ?_
        intro b hb
        rcases List.mem_map.mp hb with ⟨c, hc, rfl⟩
        have := List.all_eq_true.mp henc c hc
        simpa using this
    · refine ⟨?_, ?_⟩
      · simpa [deriveUserId] using hfb_ok henc
      · refine base64DecodeChars_encode _ ?_
        intro b hb
        rcases List.mem_map.mp hb with ⟨c, hc, rfl⟩
        have := List.all_eq_true.mp henc c hc
        simpa using this
  · rintro (rfl | rfl) henc
    · simpa [deriveUserId] using hfb_bad henc
    · simpa [deriveUserId] using hfb_bad henc

/-- Witness for C3 (amended) at concrete inputs. -/
theorem deriveUserId_spec_witness :
    deriveUserId (some "acct-1") none none = "acct-1" ∧
    deriveUserId none none none =
      String.mk (base64Encode ((composeRaw none none).toList.map Char.toNat)) :=
  ⟨(deriveUserId_spec (some "acct-1") none none).1 "acct-1" rfl (by decide),
   ((deriveUserId_spec none none none).2.1 (Or.inl rfl) (by decide)).1⟩

/-- Mapping a list with a function that preserves `id` commutes with looking
up the first item of a given `id`. -/
theorem find?_map_of_id_eq (f : TodoItem → TodoItem) (hf : ∀ t, (f t).id = t.id)
    (todos : List TodoItem) (i : String) :
    (todos.map f).find? (fun t => t.id == i) =
      (todos.find? (fun t => t.id == i)).map f := by
  induction todos with
  | nil => simp
  | cons hd tl ih =>
    simp only [List.map_cons, List.find?_cons, hf]
    cases hhd : (hd.id == i) <;> simp [hhd, ih]

/-- Claim C4: toggling an item with a non-sentinel `listId` that is present
in the local collection leaves its local `done` flag equal to the negation of
its pre-toggle value when the remote status update succeeds, and equal to its
pre-toggle value (rollback) when the remote status update fails. -/
theorem toggleTodo_rollback_spec (todos : List TodoItem) (i : String)
    (todo : TodoItem)
    (hfind : todos.find? (fun t => t.id == i) = some todo)
    (hlist : todo.listId ≠ "default") :
    (toggleTodo todos i true).find? (fun t => t.id == i) =
      some { todo with done := !todo.done } ∧
    (toggleTodo todos i false).find? (fun t => t.id == i) = some todo := by
  have hid : (todo.id == i) = true := by
    have h := List.find?_some hfind
    simpa using h
  have hf : ∀ t : TodoItem,
      ((if t.id == i then { t with done := !todo.done } else t) : TodoItem).id = t.id := by
    intro t
    by_cases h : (t.id == i) = true <;> simp [h]
  constructor
  · have : toggleTodo todos i true =
        todos.map (fun t => if t.id == i then { t with done := !todo.done } else t) := by
      simp [toggleTodo, hfind, hlist]
    rw [this, find?_map_of_id_eq _ hf, hfind]
    have heq : todo.id = i := by simpa using hid
    simp [heq]
  · have : toggleTodo todos i false =
        (todos.map (fun t => if t.id == i then { t with done := !todo.done } else t)).map
          (fun t => if t.id == i then { t with done := !(!todo.done) } else t) := by
      simp [toggleTodo, hfind, hlist]
    rw [this, find?_map_of_id_eq _ (by
      intro t
      by_cases h : (t.id == i) = true <;> simp [h]),
      find?_map_of_id_eq _ hf, hfind]
    have heq : todo.id = i := by simpa using hid
    simp [heq]
    rw [← heq]

/-- Witness for C4 on a one-item collection. -/
theorem toggleTodo_rollback_spec_witness :
    (toggleTodo [{ id := "a", listId := "l1", text := "x", done := false }] "a" true).find?
        (fun t => t.id == "a") =
      some { id := "a", listId := "l1", text := "x", done := true } ∧
    (toggleTodo [{ id := "a", listId := "l1", text := "x", done := false }] "a" false).find?
        (fun t => t.id == "a") =
      some { id := "a", listId := "l1", text := "x", done := false } :=
  toggleTodo_rollback_spec [{ id := "a", listId := "l1", text := "x", done := false }]
    "a" { id := "a", listId := "l1", text := "x", done := false } (by decide) (by decide)

/-- Claim C5: for a non-blank input text, `addTodo` leaves the local
collection untouched unless list resolution produces a target list and the
remote creation succeeds; on success exactly one new item, built from the
identifiers returned by the remote call, is prepended. -/
theorem addTodo_atomic_spec (todos : List TodoItem) (text : String)
    (lists : List TodoList) (createRes : Except Unit CreatedTask)
    (ht : jsTrim text ≠ "") :
    (createRes = .error () → addTodo todos text lists createRes = todos) ∧
    (resolveDefaultList lists = none → addTodo todos text lists createRes = todos) ∧
    (∀ dl task, resolveDefaultList lists = some dl → createRes = .ok task →
        addTodo todos text lists createRes =
          { id := task.id, listId := dl.id, text := task.title,
            done := task.status == "completed" } :: todos) := by
  refine ⟨?_, ?_, ?_⟩
  · rintro rfl
    simp only [addTodo, if_neg ht]
    cases resolveDefaultList lists <;> rfl
  · intro hres
    simp [addTodo, if_neg ht, hres]
  · rintro dl task hres rfl
    simp [addTodo, if_neg ht, hres]

/-- Witness for C5: a successful creation prepends exactly one item, a failed
creation leaves the collection untouched. -/
theorem addTodo_atomic_spec_witness :
    addTodo [] "buy milk" [{ id := "l1", displayName := "Tasks", wellknownListName := "defaultList" }]
        (.ok { id := "id1", title := "buy milk", status := "notStarted" }) =
      [{ id := "id1", listId := "l1", text := "buy milk",
         done := ("notStarted" == "completed") }] ∧
    addTodo [] "buy milk" [{ id := "l1", displayName := "Tasks", wellknownListName := "defaultList" }]
        (.error ()) = [] :=
  ⟨(addTodo_atomic_spec [] "buy milk"
      [{ id := "l1", displayName := "Tasks", wellknownListName := "defaultList" }]
      (.ok { id := "id1", title := "buy milk", status := "notStarted" }) (by decide)).2.2
      { id := "l1", displayName := "Tasks", wellknownListName := "defaultList" }
      { id := "id1", title := "buy milk", status := "notStarted" } (by decide) rfl,
   (addTodo_atomic_spec [] "buy milk"
      [{ id := "l1", displayName := "Tasks", wellknownListName := "defaultList" }]
      (.error ()) (by decide)).1 rfl⟩

/-- Claim C6: deleting an item with a non-sentinel `listId` that is present
in the local collection removes every copy of it synchronously (on remote
success no item with that id remains); if the remote deletion fails, the
removed item is re-inserted by appending, with all of its fields exactly
equal to the removed item's fields (it is the same record, now the last
element). -/
theorem deleteTodo_rollback_spec (todos : List TodoItem) (i : String)
    (todo : TodoItem)
    (hfind : todos.find? (fun t => t.id == i) = some todo)
    (hlist : todo.listId ≠ "default") :
    (∀ t ∈ deleteTodo todos i true, t.id ≠ i) ∧
    deleteTodo todos i false = todos.filter (fun t => t.id != i) ++ [todo] ∧
    todo ∈ deleteTodo todos i false ∧
    (deleteTodo todos i false).getLast? = some todo := by
  have hdel_t : deleteTodo todos i true = todos.filter (fun t => t.id != i) := by
    simp [deleteTodo, hfind, hlist]
  have hdel_f : deleteTodo todos i false =
      todos.filter (fun t => t.id != i) ++ [todo] := by
    simp [deleteTodo, hfind, hlist]
  refine ⟨?_, hdel_f, ?_, ?_⟩
  · intro t ht
    rw [hdel_t] at ht
    have := List.of_mem_filter ht
    simpa using this
  · rw [hdel_f]
    simp
  · rw [hdel_f]
    simp

/-- Witness for C6 on a two-item collection. -/
theorem deleteTodo_rollback_spec_witness :
    deleteTodo
        [{ id := "a", listId := "l1", text := "x", done := false },
         { id := "b", listId := "l1", text := "y", done := true }] "a" false =
      [{ id := "b", listId := "l1", text := "y", done := true },
       { id := "a", listId := "l1", text := "x", done := false }] := by
  have h := (deleteTodo_rollback_spec
    [{ id := "a", listId := "l1", text := "x", done := false },
     { id := "b", listId := "l1", text := "y", done := true }] "a"
    { id := "a", listId := "l1", text := "x", done := false }
    (by decide) (by decide)).2.1
  rw [h]
  rfl

/-- The fetch loop produces one result block and one `fetch`-then-`wait 150`
trace segment per list, in list order. -/
theorem getTodoItemsLoop_eq (fetchOne : TodoList → List TodoTask)
    (vl : List TodoList) :
    getTodoItemsLoop fetchOne vl =
      (vl.map fetchOne,
       (vl.map (fun l => [FetchEv.fetchList l, FetchEv.wait 150])).flatten) := by
  induction vl with
  | nil => simp [getTodoItemsLoop]
  | cons l rest ih => simp [getTodoItemsLoop, ih]

/-- Claim C7: `getTodoItems` never fetches a list tagged `flaggedEmails`;
the remaining lists are fetched strictly sequentially, each fetch followed by
a 150 ms delay before the next one (the trace is exactly the in-order
concatenation of `fetch l` / `wait 150` segments); and the returned task
sequence is the concatenation of the per-list results in list order, so its
length is the sum of the per-list result lengths. -/
theorem getTodoItems_collect_spec (lists : List TodoList)
    (fetchOne : TodoList → List TodoTask) :
    (∀ l ∈ lists, l.wellknownListName = "flaggedEmails" →
        FetchEv.fetchList l ∉ (getTodoItems lists fetchOne).2) ∧
    (getTodoItems lists fetchOne).2 =
      ((lists.filter (fun l => l.wellknownListName != "flaggedEmails")).map
        (fun l => [FetchEv.fetchList l, FetchEv.wait 150])).flatten ∧
    (getTodoItems lists fetchOne).1.1 =
      ((lists.filter (fun l => l.wellknownListName != "flaggedEmails")).map
        fetchOne).flatten ∧
    (getTodoItems lists fetchOne).1.1.length =
      ((lists.filter (fun l => l.wellknownListName != "flaggedEmails")).map
        (fun l => (fetchOne l).length)).sum := by
  have heq : getTodoItems lists fetchOne =
      ((((lists.filter (fun l => l.wellknownListName != "flaggedEmails")).map
          fetchOne).flatten,
        lists.filter (fun l => l.wellknownListName != "flaggedEmails")),
       ((lists.filter (fun l => l.wellknownListName != "flaggedEmails")).map
          (fun l => [FetchEv.fetchList l, FetchEv.wait 150])).flatten) := by
    cases lists with
    | nil => simp [getTodoItems]
    | cons l0 rest => simp [getTodoItems, getTodoItemsLoop_eq]
  refine ⟨?_, by rw [heq], by rw [heq], ?_⟩
  · intro l hl hflag hmem
    rw [heq] at hmem
    simp only [List.mem_flatten, List.mem_map] at hmem
    rcases hmem with ⟨xs, ⟨l2, hl2, rfl⟩, hx⟩
    have hne := (List.mem_filter.mp hl2).2
    simp only [List.mem_cons, List.mem_singleton] at hx
    rcases hx with hx | hx | hx
    · cases hx
      simp [hflag] at hne
    · cases hx
    · simp at hx
  · rw [heq]
    simp only [List.length_flatten, List.map_map]
    rfl

/-- Witness for C7: a flagged list is skipped, the others produce the
sequential trace and concatenated results. -/
theorem getTodoItems_collect_spec_witness :
    FetchEv.fetchList
        { id := "f", displayName := "Flagged", wellknownListName := "flaggedEmails" } ∉
      (getTodoItems
        [{ id := "f", displayName := "Flagged", wellknownListName := "flaggedEmails" },
         { id := "l1", displayName := "Tasks", wellknownListName := "defaultList" }]
        (fun _ => [])).2 :=
  (getTodoItems_collect_spec
    [{ id := "f", displayName := "Flagged", wellknownListName := "flaggedEmails" },
     { id := "l1", displayName := "Tasks", wellknownListName := "defaultList" }]
    (fun _ => [])).1
    { id := "f", displayName := "Flagged", wellknownListName := "flaggedEmails" }
    (by simp) rfl

/-- Claim C8: when the effective user key has a cached entry with a non-empty
article sequence (a within-TTL cache read returns it), `generateTopicsAndFetch`
publishes exactly the cached articles and stops without invoking topic
generation or any live article fetch. -/
theorem generateTopicsAndFetch_cacheHit (store : Store) (now : Int)
    (uid : Option String) (ctxUserId : String)
    (topicsRes : Except Unit (List String)) (newsRes : Except Unit (List Article))
    (news0 : List Article) (apiError0 : Option String) (e : NewsCacheEntry)
    (hread : (getCachedNews store now (uid.getD ctxUserId)).1 = some e)
    (hne : e.articles ≠ []) :
    (generateTopicsAndFetch store now uid ctxUserId topicsRes newsRes news0
        apiError0).news = e.articles ∧
    (generateTopicsAndFetch store now uid ctxUserId topicsRes newsRes news0
        apiError0).calledGenerateTopics = false ∧
    (generateTopicsAndFetch store now uid ctxUserId topicsRes newsRes news0
        apiError0).calledGetNews = false := by
  have hlen : e.articles.length > 0 := List.length_pos.mpr hne
  simp only [generateTopicsAndFetch, hread]
  rw [if_pos hlen]
  exact ⟨rfl, rfl, rfl⟩

/-- Witness for C8: a store holding a fresh two-article entry for `"u1"`. -/
theorem generateTopicsAndFetch_cacheHit_witness :
    (generateTopicsAndFetch
        (fun k2 => if k2 = "news_cache_u1" then
            some (.entryStr
              { articles := [{ title := "A", description := "", url := "a",
                               urlToImage := none, sourceName := "s", publishedAt := "p" },
                             { title := "B", description := "", url := "b",
                               urlToImage := none, sourceName := "s", publishedAt := "p" }],
                topics := ["t"], cachedAt := 0, userId := "u1" })
          else none)
        1000 (some "u1") "ctx" (.ok ["t"]) (.ok []) [] none).news =
      [{ title := "A", description := "", url := "a", urlToImage := none,
         sourceName := "s", publishedAt := "p" },
       { title := "B", description := "", url := "b", urlToImage := none,
         sourceName := "s", publishedAt := "p" }] :=
  (generateTopicsAndFetch_cacheHit
    (fun k2 => if k2 = "news_cache_u1" then
        some (.entryStr
          { articles := [{ title := "A", description := "", url := "a",
                           urlToImage := none, sourceName := "s", publishedAt := "p" },
                         { title := "B", description := "", url := "b",
                           urlToImage := none, sourceName := "s", publishedAt := "p" }],
            topics := ["t"], cachedAt := 0, userId := "u1" })
      else none)
    1000 (some "u1") "ctx" (.ok ["t"]) (.ok []) [] none
    { articles := [{ title := "A", description := "", url := "a", urlToImage := none,
                     sourceName := "s", publishedAt := "p" },
                   { title := "B", description := "", url := "b", urlToImage := none,
                     sourceName := "s", publishedAt := "p" }],
      topics := ["t"], cachedAt := 0, userId := "u1" }
    (by decide) (by decide)).1

/-- Claim C9 counterexample: the day boundaries are computed with
`setUTCHours`, not local time.  For a session in a UTC+1 timezone
(`off = 3600000` ms) at `now = 86400000` (1970-01-02T00:00:00Z), a completed
task created at `84000000` (1970-01-01T23:20:00Z, i.e. 00:20 local time on
the current local day) lies within the current local day's boundaries, yet
`getTasksForList` drops it. -/
theorem getTasksForList_localDay_cex :
    (specLocalDayStart 3600000 86400000 ≤ (84000000 : Int) ∧
     (84000000 : Int) ≤ specLocalDayEnd 3600000 86400000) ∧
    getTasksForList 86400000 "l1" "Tasks" "defaultList" []
        [{ id := "t1", title := "x", status := "completed", due := none,
           createdDateTime := 84000000 }] = [] := by
  constructor
  · exact ⟨by decide, by decide⟩
  · decide

/-- Claim C9 (amended, UTC day instead of local day): a task is in the output
of `getTasksForList` iff it is an incomplete-query task whose due date — or,
absent one, creation date — falls on or before the end of the current UTC
day, or a completed-query task whose creation timestamp falls within the
current UTC day's boundaries. -/
theorem getTasksForList_filter_spec (now : Int) (lid ln wkn : String)
    (nc c : List RawTask) (t : TodoTask) :
    t ∈ getTasksForList now lid ln wkn nc c ↔
      (t ∈ nc.map (mapTask lid ln wkn) ∧ onOrBeforeUtcDayEnd now (effectiveDueDate t)) ∨
      (t ∈ c.map (mapTask lid ln wkn) ∧ inUtcDayWindow now t.createdDateTime) := by
  cases hdue : t.due with
  | none =>
    simp [getTasksForList, List.mem_append, List.mem_filter, onOrBeforeUtcDayEnd,
      inUtcDayWindow, effectiveDueDate, hdue, Bool.and_eq_true, decide_eq_true_eq]
  | some d =>
    simp [getTasksForList, List.mem_append, List.mem_filter, onOrBeforeUtcDayEnd,
      inUtcDayWindow, effectiveDueDate, hdue, Bool.and_eq_true, decide_eq_true_eq]

/-- Witness for C9 (amended) at a concrete task kept by the completed-today
filter. -/
theorem getTasksForList_filter_spec_witness :
    ({ id := "t1", listId := "l1", listName := "Tasks",
       wellknownListName := "defaultList", title := "x", status := "completed",
       due := none, createdDateTime := 86500000 } : TodoTask) ∈
      getTasksForList 86400000 "l1" "Tasks" "defaultList" []
        [{ id := "t1", title := "x", status := "completed", due := none,
           createdDateTime := 86500000 }] :=
  (getTasksForList_filter_spec 86400000 "l1" "Tasks" "defaultList" []
    [{ id := "t1", title := "x", status := "completed", due := none,
       createdDateTime := 86500000 }]
    { id := "t1", listId := "l1", listName := "Tasks",
      wellknownListName := "defaultList", title := "x", status := "completed",
      due := none, createdDateTime := 86500000 }).mpr
    (Or.inr ⟨by decide, by decide, by decide⟩)
